import Mathlib

/-!
Verification of the ESP32 parking-barrier controller
(`simple_parking_barrier_system.ino` and its servo-barrier sketch variant).

The controller is a single cooperative polling loop over global state:
three slot-occupancy sensors (active-low), a debounced push button, a
servo barrier with a 5000 ms auto-close timer, two status LEDs, and a
small HTTP admin interface in the web variant.  We embed that state as
a structure `Sys` and each phase of the loop as a function on `Sys`;
machine time (`millis()`) is a `Nat` passed in explicitly, and servo
writes are recorded in a command trace `cmds`.
-/

namespace Parking

/-- Number of parking slots / sensors (`SENSOR_COUNT` in the sketch). -/
def SENSOR_COUNT : Nat := 3

/-- Barrier auto-close duration in ms (`BARRIER_OPEN_DURATION`). -/
def BARRIER_OPEN_DURATION : Nat := 5000

/-- Button debounce window in ms (`DEBOUNCE_DELAY`). -/
def DEBOUNCE_DELAY : Nat := 50

/-- Servo angle for the open barrier (`BARRIER_OPEN_ANGLE`). -/
def BARRIER_OPEN_ANGLE : Nat := 90

/-- Servo angle for the closed barrier (`BARRIER_CLOSED_ANGLE`). -/
def BARRIER_CLOSED_ANGLE : Nat := 0

/-- The global mutable state of the sketch.  Digital levels are `Bool`s
with `true` = HIGH, `false` = LOW; sensors and the pulled-up button are
active-low.  `cmds` is the trace of servo angle writes (instrumentation
for actuator-idempotence claims) and `edgeCount` counts committed
sensor occupancy edges (instrumentation for edge-emission claims). -/
structure Sys where
  slotOccupied : Fin 3 → Bool
  prevSlot : Fin 3 → Bool
  occupiedCount : Nat
  availableSlots : Nat
  barrierOpen : Bool
  barrierOpenTime : Nat
  buttonPressed : Bool
  lastButtonState : Bool
  lastDebounceTime : Nat
  totalDetections : Nat
  systemStartTime : Nat
  redLED : Bool
  greenLED : Bool
  cmds : List Nat
  edgeCount : Nat
  stateChanged : Bool
deriving DecidableEq

/-- Boot state (global initializers plus `setup()`): all slots vacant,
barrier closed, button level HIGH (pulled up, not pressed), green LED. -/
def initSys : Sys where
  slotOccupied := fun _ => false
  prevSlot := fun _ => false
  occupiedCount := 0
  availableSlots := 3
  barrierOpen := false
  barrierOpenTime := 0
  buttonPressed := true
  lastButtonState := true
  lastDebounceTime := 0
  totalDetections := 0
  systemStartTime := 0
  redLED := false
  greenLED := true
  cmds := []
  edgeCount := 0
  stateChanged := false

/-- `openBarrier()`: guarded by `if (!barrierOpen)`; writes the open
angle to the servo, marks the barrier open and records the time. -/
def openBarrier (now : Nat) (s : Sys) : Sys :=
  if s.barrierOpen = false then
    { s with barrierOpen := true, barrierOpenTime := now,
             cmds := s.cmds ++ [BARRIER_OPEN_ANGLE] }
  else s

/-- `closeBarrier()`: guarded by `if (barrierOpen)`; writes the closed
angle to the servo and marks the barrier closed. -/
def closeBarrier (s : Sys) : Sys :=
  if s.barrierOpen = true then
    { s with barrierOpen := false, cmds := s.cmds ++ [BARRIER_CLOSED_ANGLE] }
  else s

/-- `handleBarrierTiming()`: auto-close once the open duration elapsed. -/
def handleBarrierTiming (now : Nat) (s : Sys) : Sys :=
  if s.barrierOpen = true ∧ now - s.barrierOpenTime ≥ BARRIER_OPEN_DURATION then
    closeBarrier s
  else s

/-- One iteration of the sensor-scan `for` loop body at slot `i`.
`reading` is the digital level; LOW (`false`) means an object is
detected, so the current occupancy is `!reading`.  On a change the two
state arrays are updated; an occupied edge bumps `totalDetections`,
a vacated edge auto-opens the barrier when it is closed. -/
def processSlot (now : Nat) (i : Fin 3) (reading : Bool) (s : Sys) : Sys :=
  let currentState : Bool := !reading
  if currentState ≠ s.prevSlot i then
    let s1 := { s with prevSlot := Function.update s.prevSlot i currentState,
                       slotOccupied := Function.update s.slotOccupied i currentState,
                       stateChanged := true,
                       edgeCount := s.edgeCount + 1 }
    if currentState then
      { s1 with totalDetections := s1.totalDetections + 1 }
    else
      if s1.barrierOpen = false then openBarrier now s1 else s1
  else s

/-- The whole sensor-scan `for` loop over the three slots. -/
def processSensors (now : Nat) (readings : Fin 3 → Bool) (s : Sys) : Sys :=
  (List.finRange 3).foldl (fun s i => processSlot now i (readings i) s) s

/-- `handleButtonPress()`: debounce the raw button level; when the
stable level changes to LOW (pressed), toggle the barrier. -/
def handleButtonPress (now : Nat) (reading : Bool) (s : Sys) : Sys :=
  let s1 := if reading ≠ s.lastButtonState then { s with lastDebounceTime := now } else s
  let s2 :=
    if now - s1.lastDebounceTime > DEBOUNCE_DELAY then
      if reading ≠ s1.buttonPressed then
        let s3 := { s1 with buttonPressed := reading }
        if s3.buttonPressed = false then
          if s3.barrierOpen = true then closeBarrier s3 else openBarrier now s3
        else s3
      else s1
    else s1
  { s2 with lastButtonState := reading }

/-- `updateOccupancyCounters()` helper: the full recount of occupied
slots, the body of the `for` loop over the slot array. -/
def countOcc (f : Fin 3 → Bool) : Nat :=
  (List.finRange 3).countP (fun i => f i)

/-- `updateOccupancyCounters()`: recompute `occupiedCount` from the
slot array and derive `availableSlots`. -/
def updateOccupancyCounters (s : Sys) : Sys :=
  { s with occupiedCount := countOcc s.slotOccupied,
           availableSlots := SENSOR_COUNT - countOcc s.slotOccupied }

/-- `updateLEDStatus()`: red only when full, green only otherwise. -/
def updateLEDStatus (s : Sys) : Sys :=
  if s.occupiedCount = SENSOR_COUNT then
    { s with redLED := true, greenLED := false }
  else
    { s with redLED := false, greenLED := true }

/-- One pass of `loop()` (display, serial and memory housekeeping
omitted): scan sensors, service the button, service the auto-close
timer, and on any slot change recount and re-project the LEDs.
`stateChanged` models the loop-local flag, reset at the start. -/
def tick (now : Nat) (readings : Fin 3 → Bool) (button : Bool) (s : Sys) : Sys :=
  let s0 := { s with stateChanged := false }
  let s1 := processSensors now readings s0
  let s2 := handleButtonPress now button s1
  let s3 := handleBarrierTiming now s2
  if s3.stateChanged = true then updateLEDStatus (updateOccupancyCounters s3) else s3

/-- States reachable from boot by ticks with monotone `millis()`. -/
inductive Reachable : Nat → Sys → Prop where
  | boot : Reachable 0 initSys
  | step (t t' : Nat) (readings : Fin 3 → Bool) (button : Bool) (s : Sys) :
      Reachable t s → t ≤ t' → Reachable t' (tick t' readings button s)

/-- Body of an HTTP response of the admin endpoint: either the JSON
result object `{success, message}` or the 400 error object. -/
inductive AdminBody where
  | result (success : Bool) (message : String)
  | error (message : String)
deriving DecidableEq

/-- An HTTP response of the admin endpoint: status code and body. -/
structure HttpResp where
  status : Nat
  body : AdminBody
deriving DecidableEq

/-- `handleAdminAPI()` of the web variant.  The request is modelled as
the parsed `action` string when a body is present (`hasArg("plain")`),
or `none` for a body-less request; JSON decoding itself is the
out-of-scope ArduinoJson collaborator.  `reset` zeroes the detection
counter, restarts the uptime clock, clears both slot-state arrays and
recomputes counters and LEDs; any other action only reports failure. -/
def handleAdminAPI (now : Nat) (req : Option String) (s : Sys) : Sys × HttpResp :=
  match req with
  | some action =>
    if action = "reset" then
      let s1 := { s with totalDetections := 0, systemStartTime := now,
                         slotOccupied := fun _ => false,
                         prevSlot := fun _ => false }
      let s2 := updateLEDStatus (updateOccupancyCounters s1)
      (s2, ⟨200, AdminBody.result true "System reset successfully"⟩)
    else
      (s, ⟨200, AdminBody.result false "Unknown action"⟩)
  | none => (s, ⟨400, AdminBody.error "Invalid request"⟩)

/-- The three-branch `updateLEDStatus()` of the 6-slot LCD variant, as
a pure map from `occupiedCount` to the `(red, green)` pair; the middle
partial-occupancy branch emits the same levels as the empty branch. -/
def updateLEDStatusLCD6 (occupiedCount : Nat) : Bool × Bool :=
  if occupiedCount = 0 then (false, true)
  else if occupiedCount = 6 then (true, false)
  else (false, true)

/-- A run of `handleButtonPress` over a list of `(millis, level)`
samples, one per tick. -/
def runButton (s : Sys) (xs : List (Nat × Bool)) : Sys :=
  xs.foldl (fun s p => handleButtonPress p.1 p.2 s) s

/-- Example tick: at `millis = 10`, slot 0 reads LOW (occupied), the
others HIGH, button HIGH. -/
def exTick1 : Sys := tick 10 (fun i => decide (¬ i = 0)) true initSys

/-- Example tick: at `millis = 20`, all sensors read HIGH, so slot 0
vacates and the barrier auto-opens. -/
def exTick2 : Sys := tick 20 (fun _ => true) true exTick1

/-- Example button state: one LOW sample at `millis = 0` arms the
debounce window without committing. -/
def exBtnS : Sys := handleButtonPress 0 false initSys

/-- Example state with slot 0 stably occupied and the barrier closed. -/
def exVacS : Sys :=
  { initSys with prevSlot := fun i => decide (i = 0),
                 slotOccupied := fun i => decide (i = 0) }

/-! ## Helper lemmas -/

/-- Unrolling of the sensor-scan loop over the three slots. -/
theorem processSensors_eq (now : Nat) (r : Fin 3 → Bool) (s : Sys) :
    processSensors now r s =
      processSlot now 2 (r 2) (processSlot now 1 (r 1) (processSlot now 0 (r 0) s)) := rfl

/-- After `handleBarrierTiming`, an open barrier has been open for
strictly less than the auto-close duration. -/
theorem handleBarrierTiming_open_bound (now : Nat) (s : Sys) :
    (handleBarrierTiming now s).barrierOpen = true →
    now - (handleBarrierTiming now s).barrierOpenTime < BARRIER_OPEN_DURATION := by
  unfold handleBarrierTiming
  split
  · rename_i hc
    intro h
    simp [closeBarrier, hc.1] at h
  · rename_i hc
    intro h
    rcases Nat.lt_or_ge (now - s.barrierOpenTime) BARRIER_OPEN_DURATION with hlt | hge
    · exact hlt
    · exact absurd ⟨h, hge⟩ hc

/-- The end-of-tick recount and LED projection do not touch the
barrier fields. -/
theorem recount_barrier_frame (s : Sys) :
    (updateLEDStatus (updateOccupancyCounters s)).barrierOpen = s.barrierOpen ∧
    (updateLEDStatus (updateOccupancyCounters s)).barrierOpenTime = s.barrierOpenTime := by
  unfold updateLEDStatus updateOccupancyCounters
  split <;> simp

/-- After any tick, an open barrier has been open for strictly less
than the auto-close duration measured at that tick. -/
theorem tick_open_bound (now : Nat) (r : Fin 3 → Bool) (b : Bool) (s : Sys) :
    (tick now r b s).barrierOpen = true →
    now - (tick now r b s).barrierOpenTime < BARRIER_OPEN_DURATION := by
  unfold tick
  dsimp only
  split
  · intro h
    rw [(recount_barrier_frame _).1] at h
    rw [(recount_barrier_frame _).2]
    exact handleBarrierTiming_open_bound _ _ h
  · intro h
    exact handleBarrierTiming_open_bound _ _ h

/-- C1 (amended): on every reachable state the forward direction of
the invariant holds — whenever the barrier is OPEN, strictly less than
`auto_close_after` (5000 ms) has elapsed since `opened_at`, re-checked
on every tick, so the barrier is never observed OPEN beyond the
auto-close duration without an intervening re-open. -/
theorem barrier_never_open_beyond_duration :
    ∀ (t : Nat) (s : Sys), Reachable t s → s.barrierOpen = true →
      t - s.barrierOpenTime < BARRIER_OPEN_DURATION := by
  intro t s h
  induction h with
  | boot =>
    intro h
    simp [initSys] at h
  | step t t' r b s hr hle ih =>
    exact tick_open_bound t' r b s

/-- C1 counterexample: the claimed biconditional
`OPEN ⟺ now - opened_at < auto_close_after` fails on a reachable
state: at boot the barrier is CLOSED while `now - opened_at = 0` is
below the auto-close duration. -/
theorem barrier_open_iff_elapsed_counterexample :
    ¬ (∀ (t : Nat) (s : Sys), Reachable t s →
        (s.barrierOpen = true ↔ t - s.barrierOpenTime < BARRIER_OPEN_DURATION)) := by
  intro h
  have h0 := (h 0 initSys Reachable.boot).2 (by decide)
  simp [initSys] at h0

/-- Witness for `barrier_never_open_beyond_duration` at a reachable
open state (slot 0 occupied at 10 ms, vacated at 20 ms). -/
theorem barrier_never_open_beyond_duration_witness :
    Reachable 20 exTick2 ∧ exTick2.barrierOpen = true ∧
    20 - exTick2.barrierOpenTime < BARRIER_OPEN_DURATION := by
  have h1 : Reachable 10 exTick1 :=
    Reachable.step 0 10 (fun i => decide (¬ i = 0)) true initSys Reachable.boot (by omega)
  have h2 : Reachable 20 exTick2 :=
    Reachable.step 10 20 (fun _ => true) true exTick1 h1 (by omega)
  exact ⟨h2, by decide, barrier_never_open_beyond_duration 20 exTick2 h2 (by decide)⟩

/-- C3: a second open trigger while the barrier is already OPEN is a
no-op (no servo write, `barrierOpenTime` untouched); closing an
already-CLOSED barrier is a no-op; servo writes happen only when the
logical position changes; and a vacancy edge processed while already
OPEN issues no servo command and leaves the timer alone. -/
theorem barrier_commands_idempotent (now : Nat) (i : Fin 3) (r : Bool) (s : Sys) :
    (s.barrierOpen = true → openBarrier now s = s) ∧
    (s.barrierOpen = false → closeBarrier s = s) ∧
    ((openBarrier now s).cmds ≠ s.cmds → s.barrierOpen = false) ∧
    ((closeBarrier s).cmds ≠ s.cmds → s.barrierOpen = true) ∧
    (s.barrierOpen = true →
      (processSlot now i r s).cmds = s.cmds ∧
      (processSlot now i r s).barrierOpen = true ∧
      (processSlot now i r s).barrierOpenTime = s.barrierOpenTime) := by
  refine ⟨?_, ?_, ?_, ?_, ?_⟩
  · intro h; simp [openBarrier, h]
  · intro h; simp [closeBarrier, h]
  · intro h
    cases hb : s.barrierOpen
    · rfl
    · simp [openBarrier, hb] at h
  · intro h
    cases hb : s.barrierOpen
    · simp [closeBarrier, hb] at h
    · rfl
  · intro h
    simp only [processSlot]
    split_ifs with h1 h2 h3 <;> simp_all

/-- Witness for `barrier_commands_idempotent` at a concrete open state. -/
theorem barrier_commands_idempotent_witness :
    (openBarrier 7 initSys).barrierOpen = true ∧
    openBarrier 42 (openBarrier 7 initSys) = openBarrier 7 initSys ∧
    (processSlot 42 0 true (openBarrier 7 initSys)).cmds = (openBarrier 7 initSys).cmds := by
  refine ⟨by decide, ?_, ?_⟩
  · exact (barrier_commands_idempotent 42 0 true (openBarrier 7 initSys)).1 (by decide)
  · exact ((barrier_commands_idempotent 42 0 true (openBarrier 7 initSys)).2.2.2.2 (by decide)).1

/-- C2: when a debounced button edge is committed (stable raw level,
window elapsed, level differs from the stored stable level), a Pressed
edge (LOW) opens a closed barrier (stamping `opened_at = now`) and
immediately closes an open barrier regardless of elapsed time, while a
Released edge (HIGH) performs no barrier action. -/
theorem button_edge_toggles_barrier (now : Nat) (reading : Bool) (s : Sys)
    (hstable : reading = s.lastButtonState)
    (hwin : now - s.lastDebounceTime > DEBOUNCE_DELAY)
    (hchg : reading ≠ s.buttonPressed) :
    (reading = false →
       (s.barrierOpen = false →
          (handleButtonPress now reading s).barrierOpen = true ∧
          (handleButtonPress now reading s).barrierOpenTime = now ∧
          (handleButtonPress now reading s).cmds = s.cmds ++ [BARRIER_OPEN_ANGLE]) ∧
       (s.barrierOpen = true →
          (handleButtonPress now reading s).barrierOpen = false ∧
          (handleButtonPress now reading s).cmds = s.cmds ++ [BARRIER_CLOSED_ANGLE])) ∧
    (reading = true →
       (handleButtonPress now reading s).barrierOpen = s.barrierOpen ∧
       (handleButtonPress now reading s).barrierOpenTime = s.barrierOpenTime ∧
       (handleButtonPress now reading s).cmds = s.cmds ∧
       (handleButtonPress now reading s).buttonPressed = true) := by
  unfold handleButtonPress
  rw [if_neg (by simp [hstable])]
  dsimp only
  rw [if_pos hwin, if_pos hchg]
  constructor
  · intro hr
    subst hr
    constructor
    · intro hb
      simp [openBarrier, closeBarrier, hb]
    · intro hb
      simp [openBarrier, closeBarrier, hb]
  · intro hr
    subst hr
    simp

/-- Witness for `button_edge_toggles_barrier`: after one LOW sample at
0 ms, a stable LOW at 100 ms commits a Pressed edge and opens the
closed barrier. -/
theorem button_edge_toggles_barrier_witness :
    false = exBtnS.lastButtonState ∧
    100 - exBtnS.lastDebounceTime > DEBOUNCE_DELAY ∧
    false ≠ exBtnS.buttonPressed ∧
    exBtnS.barrierOpen = false ∧
    (handleButtonPress 100 false exBtnS).barrierOpen = true ∧
    (handleButtonPress 100 false exBtnS).barrierOpenTime = 100 := by
  have h := (button_edge_toggles_barrier 100 false exBtnS (by decide) (by decide)
    (by decide)).1 rfl
  exact ⟨by decide, by decide, by decide, by decide,
    (h.1 (by decide)).1, (h.1 (by decide)).2.1⟩

/-- C5: the LED projection is a pure binary function of the occupancy
snapshot: red only when `occupiedCount` equals the slot count, green
only otherwise, so every partial occupancy (including fully empty)
yields the same AVAILABLE output; the three-branch 6-slot LCD variant
computes the same binary projection. -/
theorem led_projection_binary :
    (∀ s : Sys, (updateLEDStatus s).redLED = decide (s.occupiedCount = SENSOR_COUNT) ∧
      (updateLEDStatus s).greenLED = !decide (s.occupiedCount = SENSOR_COUNT)) ∧
    (∀ n : Nat, updateLEDStatusLCD6 n = (decide (n = 6), !decide (n = 6))) := by
  constructor
  · intro s
    unfold updateLEDStatus
    split <;> rename_i h <;> simp [h]
  · intro n
    unfold updateLEDStatusLCD6
    split <;> rename_i h
    · simp [h]
    · split <;> rename_i h2 <;> simp [h2]

/-- Processing a slot whose reading carries no vacated edge leaves the
barrier fields and the servo command trace alone. -/
theorem processSlot_barrier_frame (now : Nat) (i : Fin 3) (r : Bool) (s : Sys)
    (h : ¬(s.prevSlot i = true ∧ r = true)) :
    (processSlot now i r s).barrierOpen = s.barrierOpen ∧
    (processSlot now i r s).barrierOpenTime = s.barrierOpenTime ∧
    (processSlot now i r s).cmds = s.cmds := by
  cases r <;> rcases hp : s.prevSlot i <;> simp_all [processSlot]

/-- Processing one slot does not change the stored previous reading of
a different slot. -/
theorem processSlot_prev_ne (now : Nat) (i : Fin 3) (r : Bool) (s : Sys)
    (j : Fin 3) (hj : j ≠ i) :
    (processSlot now i r s).prevSlot j = s.prevSlot j := by
  unfold processSlot openBarrier
  dsimp only
  split_ifs <;> simp [Function.update_noteq hj]

/-- A vacated edge at slot `i` while the barrier is closed opens it. -/
theorem processSlot_opens (now : Nat) (i : Fin 3) (r : Bool) (s : Sys)
    (hb : s.barrierOpen = false) (hp : s.prevSlot i = true) (hr : r = true) :
    (processSlot now i r s).barrierOpen = true := by
  subst hr
  simp [processSlot, hp, openBarrier, hb]

/-- The sensor scan never closes an open barrier. -/
theorem processSlot_stays_open (now : Nat) (i : Fin 3) (r : Bool) (s : Sys)
    (hb : s.barrierOpen = true) :
    (processSlot now i r s).barrierOpen = true := by
  unfold processSlot
  dsimp only
  split_ifs <;> simp_all

/-- C6: the sensor scan opens the barrier only on a vacated edge
(occupied-to-vacant) — in particular a vacant-to-occupied transition
never opens it — and any vacated edge while the barrier is CLOSED
unconditionally opens it. -/
theorem vacancy_edge_drives_auto_open (now : Nat) (r : Fin 3 → Bool) (s : Sys) :
    ((∀ i, ¬(s.prevSlot i = true ∧ r i = true)) →
       (processSensors now r s).barrierOpen = s.barrierOpen ∧
       (processSensors now r s).barrierOpenTime = s.barrierOpenTime ∧
       (processSensors now r s).cmds = s.cmds) ∧
    (s.barrierOpen = false → (∃ i, s.prevSlot i = true ∧ r i = true) →
       (processSensors now r s).barrierOpen = true) := by
  rw [processSensors_eq]
  constructor
  · intro h
    have h0 := processSlot_barrier_frame now 0 (r 0) s (h 0)
    have p1 : (processSlot now 0 (r 0) s).prevSlot 1 = s.prevSlot 1 :=
      processSlot_prev_ne now 0 (r 0) s 1 (by decide)
    have h1 := processSlot_barrier_frame now 1 (r 1) (processSlot now 0 (r 0) s)
      (by rw [p1]; exact h 1)
    have p2 : (processSlot now 1 (r 1) (processSlot now 0 (r 0) s)).prevSlot 2 =
        s.prevSlot 2 := by
      rw [processSlot_prev_ne now 1 (r 1) _ 2 (by decide),
        processSlot_prev_ne now 0 (r 0) s 2 (by decide)]
    have h2 := processSlot_barrier_frame now 2 (r 2) _ (by rw [p2]; exact h 2)
    exact ⟨by rw [h2.1, h1.1, h0.1], by rw [h2.2.1, h1.2.1, h0.2.1],
      by rw [h2.2.2, h1.2.2, h0.2.2]⟩
  · rintro hb ⟨i, hp, hr⟩
    fin_cases i
    · have h0 := processSlot_opens now 0 (r 0) s hb hp hr
      exact processSlot_stays_open now 2 (r 2) _ (processSlot_stays_open now 1 (r 1) _ h0)
    · cases hb0 : (processSlot now 0 (r 0) s).barrierOpen
      · have hp1 : (processSlot now 0 (r 0) s).prevSlot 1 = true := by
          rw [processSlot_prev_ne now 0 (r 0) s 1 (by decide)]; exact hp
        have h1 := processSlot_opens now 1 (r 1) _ hb0 hp1 hr
        exact processSlot_stays_open now 2 (r 2) _ h1
      · exact processSlot_stays_open now 2 (r 2) _
          (processSlot_stays_open now 1 (r 1) _ hb0)
    · cases hb1 : (processSlot now 1 (r 1) (processSlot now 0 (r 0) s)).barrierOpen
      · have hp2 : (processSlot now 1 (r 1) (processSlot now 0 (r 0) s)).prevSlot 2 =
            true := by
          rw [processSlot_prev_ne now 1 (r 1) _ 2 (by decide),
            processSlot_prev_ne now 0 (r 0) s 2 (by decide)]
          exact hp
        exact processSlot_opens now 2 (r 2) _ hb1 hp2 hr
      · exact processSlot_stays_open now 2 (r 2) _ hb1

/-- Witness for `vacancy_edge_drives_auto_open`: three occupied edges
leave the closed barrier closed; a vacated edge at slot 0 opens it. -/
theorem vacancy_edge_drives_auto_open_witness :
    (∀ i, ¬(initSys.prevSlot i = true ∧ (fun (_ : Fin 3) => false) i = true)) ∧
    (processSensors 5 (fun _ => false) initSys).barrierOpen = initSys.barrierOpen ∧
    exVacS.barrierOpen = false ∧ exVacS.prevSlot 0 = true ∧
    (processSensors 6 (fun _ => true) exVacS).barrierOpen = true := by
  refine ⟨by decide, ?_, by decide, by decide, ?_⟩
  · exact ((vacancy_edge_drives_auto_open 5 (fun _ => false) initSys).1 (by decide)).1
  · exact (vacancy_edge_drives_auto_open 6 (fun _ => true) exVacS).2 (by decide)
      ⟨0, by decide, rfl⟩

/-- A slot step that reports no change is the identity. -/
theorem processSlot_id_of_not_changed (now : Nat) (i : Fin 3) (r : Bool) (s : Sys) :
    processSlot now i r s = s ∨ (processSlot now i r s).stateChanged = true := by
  unfold processSlot
  dsimp only
  split_ifs <;> simp [openBarrier, *]

/-- A sensor scan that ends with `stateChanged = false` was the
identity on the state. -/
theorem processSensors_id_of_not_changed (now : Nat) (r : Fin 3 → Bool) (s : Sys)
    (h : (processSensors now r s).stateChanged = false) :
    processSensors now r s = s := by
  rw [processSensors_eq] at h ⊢
  rcases processSlot_id_of_not_changed now 2 (r 2)
      (processSlot now 1 (r 1) (processSlot now 0 (r 0) s)) with h2 | h2
  · rw [h2] at h ⊢
    rcases processSlot_id_of_not_changed now 1 (r 1) (processSlot now 0 (r 0) s) with h1 | h1
    · rw [h1] at h ⊢
      rcases processSlot_id_of_not_changed now 0 (r 0) s with h0 | h0
      · exact h0
      · rw [h] at h0; exact absurd h0 (by simp)
    · rw [h] at h1; exact absurd h1 (by simp)
  · rw [h] at h2; exact absurd h2 (by simp)

/-- The button handler does not touch the occupancy model or the
`stateChanged` flag. -/
theorem handleButtonPress_occ_frame (now : Nat) (b : Bool) (s : Sys) :
    (handleButtonPress now b s).slotOccupied = s.slotOccupied ∧
    (handleButtonPress now b s).occupiedCount = s.occupiedCount ∧
    (handleButtonPress now b s).availableSlots = s.availableSlots ∧
    (handleButtonPress now b s).stateChanged = s.stateChanged := by
  unfold handleButtonPress openBarrier closeBarrier
  dsimp only
  split_ifs <;> simp

/-- The auto-close timer does not touch the occupancy model or the
`stateChanged` flag. -/
theorem handleBarrierTiming_occ_frame (now : Nat) (s : Sys) :
    (handleBarrierTiming now s).slotOccupied = s.slotOccupied ∧
    (handleBarrierTiming now s).occupiedCount = s.occupiedCount ∧
    (handleBarrierTiming now s).availableSlots = s.availableSlots ∧
    (handleBarrierTiming now s).stateChanged = s.stateChanged := by
  unfold handleBarrierTiming closeBarrier
  split_ifs <;> simp

/-- The end-of-tick recount recomputes both counters from the slot
array, which it leaves unchanged. -/
theorem recount_counts (s : Sys) :
    (updateLEDStatus (updateOccupancyCounters s)).slotOccupied = s.slotOccupied ∧
    (updateLEDStatus (updateOccupancyCounters s)).occupiedCount = countOcc s.slotOccupied ∧
    (updateLEDStatus (updateOccupancyCounters s)).availableSlots =
      SENSOR_COUNT - countOcc s.slotOccupied := by
  unfold updateLEDStatus updateOccupancyCounters
  split_ifs <;> simp

/-- The recount can never exceed the number of slots. -/
theorem countOcc_le (f : Fin 3 → Bool) : countOcc f ≤ SENSOR_COUNT := by
  have h := List.countP_le_length (l := List.finRange 3) (p := fun i => f i)
  simpa [countOcc, SENSOR_COUNT] using h

/-- One tick preserves the counters-match-slots invariant. -/
theorem tick_count_inv (now : Nat) (r : Fin 3 → Bool) (b : Bool) (s : Sys)
    (h1 : s.occupiedCount = countOcc s.slotOccupied)
    (h2 : s.availableSlots = SENSOR_COUNT - s.occupiedCount) :
    (tick now r b s).occupiedCount = countOcc (tick now r b s).slotOccupied ∧
    (tick now r b s).availableSlots = SENSOR_COUNT - (tick now r b s).occupiedCount := by
  unfold tick
  dsimp only
  split_ifs with hch
  · obtain ⟨ha, hb', hc⟩ := recount_counts
      (handleBarrierTiming now (handleButtonPress now b
        (processSensors now r { s with stateChanged := false })))
    rw [ha, hb', hc]
    exact ⟨rfl, rfl⟩
  · have hbt := handleBarrierTiming_occ_frame now (handleButtonPress now b
      (processSensors now r { s with stateChanged := false }))
    have hbp := handleButtonPress_occ_frame now b
      (processSensors now r { s with stateChanged := false })
    have hchf : (processSensors now r { s with stateChanged := false }).stateChanged
        = false := by
      have hx := Bool.eq_false_iff.2 hch
      rw [hbt.2.2.2, hbp.2.2.2] at hx
      exact hx
    have hid := processSensors_id_of_not_changed now r _ hchf
    rw [hbt.1, hbt.2.1, hbt.2.2.1, hbp.1, hbp.2.1, hbp.2.2.1, hid]
    exact ⟨h1, h2⟩

/-- C4: in every reachable state `occupiedCount` equals the full
recount of slots whose stable occupancy is true, `availableSlots` is
the slot count minus `occupiedCount`, and the two counters always sum
to the slot count. -/
theorem occupancy_counters_invariant :
    ∀ (t : Nat) (s : Sys), Reachable t s →
      s.occupiedCount = countOcc s.slotOccupied ∧
      s.availableSlots = SENSOR_COUNT - s.occupiedCount ∧
      s.occupiedCount + s.availableSlots = SENSOR_COUNT := by
  intro t s h
  induction h with
  | boot => refine ⟨by decide, by decide, by decide⟩
  | step t t' r b s hr hle ih =>
    obtain ⟨hA, hB⟩ := tick_count_inv t' r b s ih.1 ih.2.1
    refine ⟨hA, hB, ?_⟩
    have hle3 : (tick t' r b s).occupiedCount ≤ SENSOR_COUNT := by
      rw [hA]; exact countOcc_le _
    omega

/-- Witness for `occupancy_counters_invariant` at a reachable state
with one occupied slot then one vacated slot. -/
theorem occupancy_counters_invariant_witness :
    Reachable 10 exTick1 ∧
    exTick1.occupiedCount = countOcc exTick1.slotOccupied ∧
    exTick1.occupiedCount + exTick1.availableSlots = SENSOR_COUNT := by
  have h1 : Reachable 10 exTick1 :=
    Reachable.step 0 10 (fun i => decide (¬ i = 0)) true initSys Reachable.boot (by omega)
  exact ⟨h1, (occupancy_counters_invariant 10 exTick1 h1).1,
    (occupancy_counters_invariant 10 exTick1 h1).2.2⟩

/-- C7 counterexample: the sensor channels do not wait for two
consecutive agreeing ticks — at boot (previous reading vacant) a
single LOW sample at slot 0 already commits the occupancy edge, so an
edge fires at a tick whose occupancy reading disagrees with the
previous tick's stored reading. -/
theorem sensor_two_tick_agreement_counterexample :
    ¬ (∀ (now : Nat) (i : Fin 3) (r : Bool) (s : Sys),
        (processSlot now i r s).edgeCount = s.edgeCount + 1 → (!r) = s.prevSlot i) := by
  intro h
  have := h 5 0 false initSys (by decide)
  simp [initSys] at this

/-- C7 (amended): a sensor-channel edge fires as soon as a single
tick's occupancy reading differs from the previous tick's stored
reading (no agreement window at all); the step then emits exactly one
edge for that channel, and a reading equal to the stored previous
reading leaves the channel state untouched and emits no edge. -/
theorem sensor_edge_single_tick (now : Nat) (i : Fin 3) (r : Bool) (s : Sys) :
    ((!r) = s.prevSlot i → processSlot now i r s = s) ∧
    ((!r) ≠ s.prevSlot i →
       (processSlot now i r s).slotOccupied i = (!r) ∧
       (processSlot now i r s).prevSlot i = (!r) ∧
       (processSlot now i r s).edgeCount = s.edgeCount + 1) ∧
    (processSlot now i r s).edgeCount ≤ s.edgeCount + 1 := by
  refine ⟨?_, ?_, ?_⟩
  · intro h
    simp [processSlot, h]
  · intro h
    unfold processSlot
    dsimp only
    rw [if_pos h]
    split_ifs <;> simp [openBarrier, Function.update_same, *]
  · unfold processSlot
    dsimp only
    split_ifs <;> simp [openBarrier, *]

/-- Witness for `sensor_edge_single_tick`: a stable HIGH reading at
boot is a no-op, and a first LOW reading at slot 0 commits one edge. -/
theorem sensor_edge_single_tick_witness :
    ((!(true : Bool)) = initSys.prevSlot 0 ∧ processSlot 5 0 true initSys = initSys) ∧
    ((!(false : Bool)) ≠ initSys.prevSlot 0 ∧
      (processSlot 5 0 false initSys).slotOccupied 0 = true ∧
      (processSlot 5 0 false initSys).edgeCount = initSys.edgeCount + 1) := by
  constructor
  · exact ⟨by decide, (sensor_edge_single_tick 5 0 true initSys).1 (by decide)⟩
  · refine ⟨by decide, ?_, ?_⟩
    · exact ((sensor_edge_single_tick 5 0 false initSys).2.1 (by decide)).1
    · exact ((sensor_edge_single_tick 5 0 false initSys).2.1 (by decide)).2.2

/-- The stored raw level always becomes the tick's reading. -/
theorem handleButtonPress_lastState (now : Nat) (b : Bool) (s : Sys) :
    (handleButtonPress now b s).lastButtonState = b := rfl

/-- The debounce clock is restarted exactly when the raw reading
differs from the stored raw level. -/
theorem handleButtonPress_lastDebounce (now : Nat) (b : Bool) (s : Sys) :
    (handleButtonPress now b s).lastDebounceTime =
      if b ≠ s.lastButtonState then now else s.lastDebounceTime := by
  unfold handleButtonPress openBarrier closeBarrier
  dsimp only
  split_ifs <;> simp

/-- A raw reading differing from the stored raw level restarts the
window and commits nothing: stable state, barrier and servo trace are
untouched and the debounce clock is stamped to `now`. -/
theorem handleButtonPress_restart (now : Nat) (b : Bool) (s : Sys)
    (h : b ≠ s.lastButtonState) :
    (handleButtonPress now b s).buttonPressed = s.buttonPressed ∧
    (handleButtonPress now b s).lastDebounceTime = now ∧
    (handleButtonPress now b s).barrierOpen = s.barrierOpen ∧
    (handleButtonPress now b s).cmds = s.cmds := by
  unfold handleButtonPress
  rw [if_pos h]
  dsimp only
  rw [if_neg (by simp [DEBOUNCE_DELAY])]
  simp

/-- Characterization of the stable button level after one step: it
becomes the reading exactly when the reading matched the stored raw
level, the window strictly elapsed, and it differed from the old
stable level; otherwise it is unchanged. -/
theorem handleButtonPress_pressed_eq (now : Nat) (b : Bool) (s : Sys) :
    (handleButtonPress now b s).buttonPressed =
      if b = s.lastButtonState ∧ now - s.lastDebounceTime > DEBOUNCE_DELAY ∧
          b ≠ s.buttonPressed then b
      else s.buttonPressed := by
  unfold handleButtonPress openBarrier closeBarrier
  dsimp only
  split_ifs <;> simp_all

/-- If the debounced stable level changed during one button step, then
the reading agreed with the stored raw level, the debounce window had
strictly elapsed, and the reading differed from the old stable level;
the new stable level is the reading. -/
theorem handleButtonPress_commit_conditions (now : Nat) (b : Bool) (s : Sys)
    (h : (handleButtonPress now b s).buttonPressed ≠ s.buttonPressed) :
    b = s.lastButtonState ∧ now - s.lastDebounceTime > DEBOUNCE_DELAY ∧
    b ≠ s.buttonPressed ∧ (handleButtonPress now b s).buttonPressed = b := by
  rw [handleButtonPress_pressed_eq] at h
  by_cases hc : b = s.lastButtonState ∧ now - s.lastDebounceTime > DEBOUNCE_DELAY ∧
      b ≠ s.buttonPressed
  · exact ⟨hc.1, hc.2.1, hc.2.2, by rw [handleButtonPress_pressed_eq, if_pos hc]⟩
  · rw [if_neg hc] at h
    exact absurd rfl h

/-- Along a run with strictly increasing tick times, every sample
taken after the last restart of the debounce clock showed the stored
raw level: the raw signal has been constant since the clock restart. -/
theorem runButton_raw_constant (s : Sys) (xs : List (Nat × Bool))
    (hsort : xs.Pairwise (fun p q => p.1 < q.1)) :
    ∀ p ∈ xs, p.1 > (runButton s xs).lastDebounceTime →
      p.2 = (runButton s xs).lastButtonState := by
  induction xs using List.reverseRecOn with
  | nil => intro p hp; exact absurd hp (by simp)
  | append_singleton l q ih =>
    have hsl : l.Pairwise (fun p q => p.1 < q.1) :=
      (List.pairwise_append.1 hsort).1
    have hlt : ∀ p ∈ l, p.1 < q.1 := by
      intro p hp
      exact (List.pairwise_append.1 hsort).2.2 p hp q (by simp)
    have hrun : runButton s (l ++ [q]) = handleButtonPress q.1 q.2 (runButton s l) := by
      simp [runButton, List.foldl_append]
    intro p hp hgt
    rw [hrun, handleButtonPress_lastState]
    rw [hrun, handleButtonPress_lastDebounce] at hgt
    rcases List.mem_append.1 hp with hpl | hpq
    · by_cases hne : q.2 = (runButton s l).lastButtonState
      · rw [if_neg (by simp [hne])] at hgt
        rw [← hne] at ih
        exact ih hsl p hpl hgt
      · rw [if_pos hne] at hgt
        exact absurd hgt (by have := hlt p hpl; omega)
    · have : p = q := by simpa using hpq
      rw [this]

/-- C8: for every sequence of raw button samples at strictly
increasing tick times, (a) a reading that differs from the stored raw
level only restarts the debounce clock — no stable-state change, no
barrier action — and (b) whenever the debounced stable state does
change, the new reading had been held at every sample for more than
the 50 ms window (all samples after the last restart agree with it)
and differed from the old stable state. -/
theorem button_debounce_window (s : Sys) (xs : List (Nat × Bool)) (t : Nat) (r : Bool)
    (hsort : (xs ++ [(t, r)]).Pairwise (fun p q => p.1 < q.1)) :
    (r ≠ (runButton s xs).lastButtonState →
       (handleButtonPress t r (runButton s xs)).buttonPressed =
         (runButton s xs).buttonPressed ∧
       (handleButtonPress t r (runButton s xs)).lastDebounceTime = t ∧
       (handleButtonPress t r (runButton s xs)).barrierOpen =
         (runButton s xs).barrierOpen ∧
       (handleButtonPress t r (runButton s xs)).cmds = (runButton s xs).cmds) ∧
    ((handleButtonPress t r (runButton s xs)).buttonPressed ≠
        (runButton s xs).buttonPressed →
       r = (runButton s xs).lastButtonState ∧
       t - (runButton s xs).lastDebounceTime > DEBOUNCE_DELAY ∧
       r ≠ (runButton s xs).buttonPressed ∧
       ∀ p ∈ xs, p.1 > (runButton s xs).lastDebounceTime → p.2 = r) := by
  constructor
  · intro h
    exact handleButtonPress_restart t r (runButton s xs) h
  · intro h
    obtain ⟨h1, h2, h3, _⟩ := handleButtonPress_commit_conditions t r (runButton s xs) h
    refine ⟨h1, h2, h3, ?_⟩
    intro p hp hgt
    rw [h1]
    exact runButton_raw_constant s xs (List.pairwise_append.1 hsort).1 p hp hgt

/-- Witness for `button_debounce_window`: a LOW sample at 0 ms then a
stable LOW at 100 ms commits the Pressed edge after the window. -/
theorem button_debounce_window_witness :
    (([(0, false)] ++ [(100, false)] : List (Nat × Bool)).Pairwise
      (fun p q => p.1 < q.1)) ∧
    (handleButtonPress 100 false (runButton initSys [(0, false)])).buttonPressed ≠
      (runButton initSys [(0, false)]).buttonPressed ∧
    (false = (runButton initSys [(0, false)]).lastButtonState ∧
      100 - (runButton initSys [(0, false)]).lastDebounceTime > DEBOUNCE_DELAY) := by
  have h := (button_debounce_window initSys [(0, false)] 100 false (by decide)).2
    (by decide)
  exact ⟨by decide, by decide, h.1, h.2.1⟩

/-- C9: the admin `reset` action clears every slot's occupancy state,
zeroes the detection counter, restarts the uptime clock, recomputes
`occupiedCount = 0` and `availableSlots = 3`, and reports success,
while leaving the barrier position and its timer untouched. -/
theorem admin_reset_effect_and_frame (now : Nat) (s : Sys) :
    ((handleAdminAPI now (some "reset") s).1.slotOccupied = fun _ => false) ∧
    ((handleAdminAPI now (some "reset") s).1.prevSlot = fun _ => false) ∧
    (handleAdminAPI now (some "reset") s).1.totalDetections = 0 ∧
    (handleAdminAPI now (some "reset") s).1.systemStartTime = now ∧
    (handleAdminAPI now (some "reset") s).1.barrierOpen = s.barrierOpen ∧
    (handleAdminAPI now (some "reset") s).1.barrierOpenTime = s.barrierOpenTime ∧
    (handleAdminAPI now (some "reset") s).1.occupiedCount = 0 ∧
    (handleAdminAPI now (some "reset") s).1.availableSlots = 3 ∧
    (handleAdminAPI now (some "reset") s).2 =
      ⟨200, AdminBody.result true "System reset successfully"⟩ := by
  simp [handleAdminAPI, updateOccupancyCounters, updateLEDStatus, countOcc, SENSOR_COUNT]

/-- C10: any admin action other than `reset` leaves the system state
entirely unchanged and is answered 200 with `success = false` and
message "Unknown action"; a request without a body is answered 400 and
likewise changes no state. -/
theorem admin_unknown_action_no_change (now : Nat) (s : Sys) (a : String)
    (h : a ≠ "reset") :
    handleAdminAPI now (some a) s = (s, ⟨200, AdminBody.result false "Unknown action"⟩) ∧
    handleAdminAPI now none s = (s, ⟨400, AdminBody.error "Invalid request"⟩) := by
  constructor
  · simp [handleAdminAPI, h]
  · rfl

/-- Witness for `admin_unknown_action_no_change` on the action "status". -/
theorem admin_unknown_action_no_change_witness :
    ("status" : String) ≠ "reset" ∧
    handleAdminAPI 7 (some "status") initSys =
      (initSys, ⟨200, AdminBody.result false "Unknown action"⟩) ∧
    handleAdminAPI 7 none initSys =
      (initSys, ⟨400, AdminBody.error "Invalid request"⟩) :=
  ⟨by decide, admin_unknown_action_no_change 7 initSys "status" (by decide)⟩

end Parking
